import Mathlib

/-!
Verification development for the joint energy-based scene-graph training
script (tools/energy_joint_train_cd.py).  The definitions below are a
shallow embedding of the orchestration code: validation averaging
(run_energy_val), the per-iteration control flow of the training loop
(modelled as an event trace plus explicit state), the freeze routine
fix_eval_modules, loss-dictionary assembly, and the checkpointer
construction.  External collaborators (models, sampler, schedulers,
distributed communication) are abstracted by oracle inputs.
-/

namespace EnergyJointTrain

/-! Validation averaging: run_energy_val, lines 363-425 of the script. -/

/-- Embedding of the tensor expression gathered_result[gathered_result>=0]:
keep exactly the entries that are greater than or equal to zero. -/
def sentinelFilter (gathered : List ℚ) : List ℚ :=
  gathered.filter (fun x => decide (0 ≤ x))

/-- Embedding of lines 418-422: gather (already flattened across workers),
filter with the sentinel predicate, and take the mean.  An empty filtered
vector yields NaN in torch; that exceptional value is modelled as none. -/
def energyValAverage (gathered : List ℚ) : Option ℚ :=
  if (sentinelFilter gathered).length = 0 then none
  else some ((sentinelFilter gathered).sum / ((sentinelFilter gathered).length : ℚ))

/-- Embedding of run_energy_val, lines 379-425.  The loop body (lines
381-416) appends each per-dataset result to the accumulator val_result and
leaves the loop variable dataset_result bound to the last dataset's result;
lines 418-422 then gather, filter and average only dataset_result.
inference_result d stands for the flattened cross-worker gather of the
per-worker energy_inference outputs on dataset d.  An empty dataset list
leaves dataset_result unbound (a NameError in Python), modelled as none. -/
def run_energy_val (dataset_names : List String)
    (inference_result : String → List ℚ) : Option ℚ :=
  match (dataset_names.foldl
      (fun acc d => (acc.1 ++ [inference_result d], some (inference_result d)))
      (([] : List (List ℚ)), (none : Option (List ℚ)))).2 with
  | none => none
  | some dataset_result => energyValAverage dataset_result

/-! Loss dictionaries: lines 236-242 of the script. -/

/-- A loss dictionary: ordered association list from loss-term name to its
scalar value, as produced by the detector and the contrastive loss. -/
abbrev LossDict := List (String × ℚ)

/-- Sum of the values of a loss dictionary: sum(d.values()). -/
def valuesSum (d : LossDict) : ℚ := (d.map (fun kv => kv.2)).sum

/-- The key list of a loss dictionary. -/
def keysOf (d : LossDict) : List String := d.map (fun kv => kv.1)

/-- Python dict lookup on an association list. -/
def dictFind (k : String) : LossDict → Option ℚ
  | [] => none
  | kv :: rest => if k = kv.1 then some kv.2 else dictFind k rest

/-- Python dictionary merge by unpacking, as in the braces expression
on line 242 merging task_loss_dict with energy_loss_dict: keys of the
first dictionary keep their position (with the second dictionary's value
on a collision), then the second dictionary's fresh keys follow. -/
def pyMerge (a b : LossDict) : LossDict :=
  a.map (fun kv =>
    match dictFind kv.1 b with
    | some w => (kv.1, w)
    | none => kv)
  ++ b.filter (fun kv => (dictFind kv.1 a).isNone)

/-- Embedding of lines 239-241: task_losses and energy_losses are the two
value sums and total_losses is their sum. -/
def total_losses (task_loss_dict energy_loss_dict : LossDict) : ℚ :=
  valuesSum task_loss_dict + valuesSum energy_loss_dict

/-- Embedding of line 242: the merged loss dictionary. -/
def loss_dict (task_loss_dict energy_loss_dict : LossDict) : LossDict :=
  pyMerge task_loss_dict energy_loss_dict

/-! Modules and the freeze routine fix_eval_modules, lines 357-361. -/

/-- A parameter of a torch module: only the requires_grad flag matters to
the orchestrator. -/
structure Param where
  requires_grad : Bool
deriving DecidableEq

/-- A torch module as seen by the orchestrator: its parameter list and its
training flag (the flag that train() sets and eval() clears, governing
normalization/dropout behavior). -/
structure NNModule where
  params : List Param
  training : Bool
deriving DecidableEq

/-- model.train(): sets the training flag; it does not touch any
parameter's requires_grad flag. -/
def setTrainMode (m : NNModule) : NNModule := { m with training := true }

/-- n successive calls of model.train(). -/
def trainIter : Nat → NNModule → NNModule
  | 0, m => m
  | n + 1, m => setTrainMode (trainIter n m)

/-- Embedding of fix_eval_modules (lines 357-361): disable requires_grad
on every parameter of every listed module.  The source deliberately does
not call eval(), so the training flag is left untouched. -/
def fix_eval_modules (eval_modules : List NNModule) : List NNModule :=
  eval_modules.map (fun m =>
    { m with params := m.params.map (fun p => { p with requires_grad := false }) })

/-! Checkpointer construction, lines 137-142. -/

/-- Reference to one of the two optimizers built in train. -/
inductive OptRef where
  | baseOpt
  | energyOpt
deriving DecidableEq

/-- Reference to one of the two schedulers built in train. -/
inductive SchedRef where
  | baseSched
  | energySched
deriving DecidableEq

/-- The arguments of the EBMCheckpointer constructor that decide which
optimization state is persisted. -/
structure EBMCheckpointer where
  base_optimizer : Option OptRef
  energy_optimizer : Option OptRef
  base_scheduler : Option SchedRef
  energy_scheduler : Option SchedRef
  custom_scheduler : Bool
deriving DecidableEq

/-- The checkpointer as constructed in train, lines 137-142: the detector
optimizer and scheduler slots receive None, the energy optimizer and
scheduler are supplied. -/
def trainCheckpointer : EBMCheckpointer where
  base_optimizer := none
  energy_optimizer := some OptRef.energyOpt
  base_scheduler := none
  energy_scheduler := some SchedRef.energySched
  custom_scheduler := true

/-! The training loop, lines 178-346, modelled as a state machine whose
observable side effects are recorded in an event trace. -/

/-- One observable side effect of an iteration of the training loop, in
source order. -/
inductive Event where
  | logEmptyTarget (iter : Nat) (targetLens : List Nat)
  | baseTrainMode
  | fixEvalCall
  | energyTrainMode
  | forwardPass
  | buildGtGraph
  | buildPredGraph
  | samplerSample
  | scorePositive
  | scoreNegative
  | lossAssembly
  | wandbLog
  | reduceLoss
  | zeroGradBase
  | zeroGradEnergy
  | backwardPass
  | clipGradEnergy
  | clipGradBase
  | optStepBase
  | optStepEnergy
  | progressLog (iter : Nat)
  | checkpointSave (nameCounter : Nat) (argIter : Nat)
  | checkpointFinal (argIter : Nat)
  | runValidation (iter : Nat)
  | schedStepEnergy
  | schedStepBase
  | plateauCheck (triggered : Bool)
  | devRunCheck (triggered : Bool)
deriving DecidableEq

/-- The configuration fields the loop control flow reads. -/
structure Config where
  /-- cfg.SOLVER.SCHEDULE.TYPE equals the plateau policy name. -/
  schedulePlateau : Bool
  /-- cfg.SOLVER.SCHEDULE.MAX_DECAY_STEP. -/
  maxDecayStep : Nat
  /-- cfg.MODEL.DEV_RUN. -/
  devRun : Bool
  /-- cfg.SOLVER.CHECKPOINT_PERIOD. -/
  checkpointPeriod : Nat
  /-- cfg.SOLVER.TO_VAL. -/
  toVal : Bool
  /-- cfg.SOLVER.VAL_PERIOD. -/
  valPeriod : Nat
  /-- cfg.SOLVER.PRINT_GRAD_FREQ. -/
  printGradFreq : Nat
  /-- max_iter, the length of the training data loader. -/
  maxIter : Nat
  /-- get_rank() == 0. -/
  isRankZero : Bool

/-- Oracle inputs of one loop pass: the target lengths of the batch and
the stage counts the two plateau schedulers expose after their step call
for this iteration (the schedulers themselves are external). -/
structure BatchIn where
  targetLens : List Nat
  energyStageAfter : Nat
  baseStageAfter : Nat
deriving DecidableEq

/-- Mutable loop state: the persisted iteration counter from the
arguments mapping, the two schedulers' stage counts, and the
print_first_grad flag. -/
structure TrainState where
  iteration : Nat
  energyStage : Nat
  baseStage : Nat
  printFirstGrad : Bool
deriving DecidableEq

/-- Lines 189-190: an annotation-less target is logged; nothing else. -/
def preEvents (iter : Nat) (targetLens : List Nat) : List Event :=
  if targetLens.any (fun l => decide (l < 1)) then
    [Event.logEmptyTarget iter targetLens]
  else []

/-- Lines 196-198: base_model.train(), fix_eval_modules, energy_model.train(). -/
def modeEvents : List Event :=
  [Event.baseTrainMode, Event.fixEvalCall, Event.energyTrainMode]

/-- Lines 202-252: forward, graph building, sampling, scoring, loss
assembly, rank-zero dashboard logging and the distributed loss reduction. -/
def forwardLossEvents (isRankZero : Bool) : List Event :=
  [Event.forwardPass, Event.buildGtGraph, Event.buildPredGraph,
   Event.samplerSample, Event.scorePositive, Event.scoreNegative,
   Event.lossAssembly]
  ++ (if isRankZero then [Event.wandbLog] else [])
  ++ [Event.reduceLoss]

/-- Lines 257-283: zero both gradients, one combined backward pass, clip
the energy then the base gradients, step the base then the energy
optimizer. -/
def optimEvents : List Event :=
  [Event.zeroGradBase, Event.zeroGradEnergy, Event.backwardPass,
   Event.clipGradEnergy, Event.clipGradBase,
   Event.optStepBase, Event.optStepEnergy]

/-- Lines 294-326: periodic progress line, periodic checkpoint save (the
name counter and the arguments iteration are both the current iteration
variable), final checkpoint, periodic validation. -/
def periodicEvents (cfg : Config) (iter : Nat) : List Event :=
  (if iter % 200 = 0 ∨ iter = cfg.maxIter then [Event.progressLog iter] else [])
  ++ (if iter % cfg.checkpointPeriod = 0 then [Event.checkpointSave iter iter] else [])
  ++ (if iter = cfg.maxIter then [Event.checkpointFinal iter] else [])
  ++ (if cfg.toVal ∧ iter % cfg.valPeriod = 0 then [Event.runValidation iter] else [])

/-- Line 338: the plateau termination condition, evaluated on the stage
counts the schedulers expose after their step call. -/
def plateauTrigger (cfg : Config) (b : BatchIn) : Bool :=
  cfg.schedulePlateau &&
    (decide (cfg.maxDecayStep ≤ b.energyStageAfter) ||
      decide (cfg.maxDecayStep ≤ b.baseStageAfter))

/-- Line 345: the development-run termination condition. -/
def devTrigger (cfg : Config) (iter : Nat) : Bool :=
  cfg.devRun && iter == 10

/-- Lines 332-346: both scheduler steps (energy first), then the
plateau-stage check when the plateau policy is active; the dev-run check
on line 345 is reached only when the plateau check did not break. -/
def schedEvents (cfg : Config) (plateauTrig devTrig : Bool) : List Event :=
  if cfg.schedulePlateau then
    [Event.schedStepEnergy, Event.schedStepBase, Event.plateauCheck plateauTrig]
    ++ (if plateauTrig then [] else [Event.devRunCheck devTrig])
  else
    [Event.schedStepEnergy, Event.schedStepBase, Event.devRunCheck devTrig]

/-- The full event trace of one pass of the loop body, lines 187-346, in
source order. -/
def iterEvents (cfg : Config) (st : TrainState) (b : BatchIn) : List Event :=
  preEvents (st.iteration + 1) b.targetLens
  ++ modeEvents
  ++ forwardLossEvents cfg.isRankZero
  ++ optimEvents
  ++ periodicEvents cfg (st.iteration + 1)
  ++ schedEvents cfg (plateauTrigger cfg b) (devTrigger cfg (st.iteration + 1))

/-- The state after one pass: line 192 increments the iteration counter
and line 193 stores it in the arguments mapping; the stage counts are
those the schedulers expose after the step calls of the plateau branch;
line 277 clears print_first_grad. -/
def iterNextState (cfg : Config) (st : TrainState) (b : BatchIn) : TrainState :=
  { iteration := st.iteration + 1,
    energyStage := if cfg.schedulePlateau then b.energyStageAfter else st.energyStage,
    baseStage := if cfg.schedulePlateau then b.baseStageAfter else st.baseStage,
    printFirstGrad := false }

/-- Whether this pass breaks out of the loop (line 340 or line 346). -/
def iterBreak (cfg : Config) (st : TrainState) (b : BatchIn) : Bool :=
  plateauTrigger cfg b || devTrigger cfg (st.iteration + 1)

/-- The training loop of lines 187-346 over a stream of batches: run the
body, stop when a break fires, otherwise continue with the next batch.
The result is the final state and the concatenated event trace. -/
def trainLoop (cfg : Config) : TrainState → List BatchIn → TrainState × List Event
  | st, [] => (st, [])
  | st, b :: bs =>
    if iterBreak cfg st b then (iterNextState cfg st b, iterEvents cfg st b)
    else
      ((trainLoop cfg (iterNextState cfg st b) bs).1,
        iterEvents cfg st b ++ (trainLoop cfg (iterNextState cfg st b) bs).2)

/-- Entry into the loop from train: iteration starts at start_iter (line
181), fresh schedulers have stage count zero, print_first_grad is True
(line 185). -/
def trainRun (cfg : Config) (start_iter : Nat) (bs : List BatchIn) :
    TrainState × List Event :=
  trainLoop cfg
    { iteration := start_iter, energyStage := 0, baseStage := 0,
      printFirstGrad := true } bs

/-! Observation helpers on event traces. -/

/-- The per-iteration steps named by the ordering contract: backward,
clipping, optimizer steps, checkpoint saves, validation, scheduler steps
and the termination checks. -/
def isKeyEvt : Event → Bool
  | Event.backwardPass => true
  | Event.clipGradEnergy => true
  | Event.clipGradBase => true
  | Event.optStepBase => true
  | Event.optStepEnergy => true
  | Event.checkpointSave _ _ => true
  | Event.checkpointFinal _ => true
  | Event.runValidation _ => true
  | Event.schedStepEnergy => true
  | Event.schedStepBase => true
  | Event.plateauCheck _ => true
  | Event.devRunCheck _ => true
  | _ => false

/-- Restriction of a trace to the key per-iteration steps. -/
def keyEvents (t : List Event) : List Event := t.filter isKeyEvt

/-- Scheduler-step events. -/
def isSchedStepEvt : Event → Bool
  | Event.schedStepEnergy => true
  | Event.schedStepBase => true
  | _ => false

/-- Checkpoint-save or validation events. -/
def isCkptOrValEvt : Event → Bool
  | Event.checkpointSave _ _ => true
  | Event.checkpointFinal _ => true
  | Event.runValidation _ => true
  | _ => false

/-- Every checkpoint save in the trace carries the iteration counter i as
its persisted-arguments value. -/
def savesCarryIter (t : List Event) (i : Nat) : Bool :=
  t.all (fun e =>
    match e with
    | Event.checkpointSave _ a => a == i
    | Event.checkpointFinal a => a == i
    | _ => true)

/-! Concrete instances used by the witnesses and the counterexample. -/

/-- A plain configuration: fixed-step schedule, no dev run. -/
def cfgPlain : Config where
  schedulePlateau := false
  maxDecayStep := 3
  devRun := false
  checkpointPeriod := 5
  toVal := true
  valPeriod := 5
  printGradFreq := 5
  maxIter := 50
  isRankZero := true

/-- The plain configuration with the development flag set. -/
def cfgDev : Config := { cfgPlain with devRun := true }

/-- A plateau-schedule configuration that checkpoints and validates every
iteration. -/
def cfgPlateau : Config :=
  { cfgPlain with schedulePlateau := true, checkpointPeriod := 1, valPeriod := 1 }

/-- Fresh loop state at iteration zero. -/
def stZero : TrainState where
  iteration := 0
  energyStage := 0
  baseStage := 0
  printFirstGrad := true

/-- A normal batch: both targets annotated, stage counts stay at zero. -/
def batchOk : BatchIn where
  targetLens := [2, 3]
  energyStageAfter := 0
  baseStageAfter := 0

/-- A batch whose first target has no annotated entity. -/
def batchEmptyTarget : BatchIn where
  targetLens := [0, 2]
  energyStageAfter := 0
  baseStageAfter := 0

/-- A batch after which the energy scheduler reports stage count 3. -/
def batchDecayed : BatchIn where
  targetLens := [2]
  energyStageAfter := 3
  baseStageAfter := 0

/-- A module with two trainable parameters, initially out of training
mode, standing for one of the frozen detector sub-modules. -/
def moduleA : NNModule where
  params := [{ requires_grad := true }, { requires_grad := true }]
  training := false

/-! Helper lemmas. -/

/-- The sentinel filter drops a negative entry wherever it occurs. -/
theorem sentinelFilter_drop_neg {s : ℚ} (hs : s < 0) (xs ys : List ℚ) :
    sentinelFilter (xs ++ s :: ys) = sentinelFilter (xs ++ ys) := by
  simp [sentinelFilter, List.filter_append, List.filter_cons, not_le.mpr hs]

/-- After the validation loop, the loop variable dataset_result holds the
last dataset's gathered results. -/
theorem valLoop_snd_last (f : String → List ℚ) :
    ∀ (ds : List String) (acc : List (List ℚ)) (r : Option (List ℚ)) (d : String),
      ds.getLast? = some d →
      (ds.foldl (fun p x => (p.1 ++ [f x], some (f x))) (acc, r)).2 = some (f d) := by
  intro ds
  induction ds with
  | nil => intro acc r d h; simp at h
  | cons a t ih =>
    intro acc r d h
    cases t with
    | nil =>
      simp at h
      subst h
      simp
    | cons b t2 =>
      rw [List.getLast?_cons_cons] at h
      simpa using ih (acc ++ [f a]) (some (f a)) d h

/-- C1: for every gathered vector of per-worker validation scalars,
run_energy_val returns the mean of only the entries that are greater than
or equal to zero — negative sentinel entries (workers with no local
examples) are dropped before averaging — and on the input
[-1, 0.4, -1, 0.8] it returns 0.6, not -0.05. -/
theorem energy_val_filters_and_averages :
    (∀ gathered : List ℚ, (∃ x ∈ gathered, 0 ≤ x) →
        energyValAverage gathered
          = some ((sentinelFilter gathered).sum
              / ((sentinelFilter gathered).length : ℚ))) ∧
    (∀ (xs ys : List ℚ) (s : ℚ), s < 0 →
        energyValAverage (xs ++ s :: ys) = energyValAverage (xs ++ ys)) ∧
    run_energy_val ["VG_stanford_filtered_val"] (fun _ => [-1, 2/5, -1, 4/5])
      = some (3/5) ∧
    run_energy_val ["VG_stanford_filtered_val"] (fun _ => [-1, 2/5, -1, 4/5])
      ≠ some (-(1/20)) := by
  refine ⟨?_, ?_, ?_, ?_⟩
  · intro gathered hx
    obtain ⟨x, hxg, hx0⟩ := hx
    have hmem : x ∈ sentinelFilter gathered := by
      simp [sentinelFilter, List.mem_filter, hxg, hx0]
    have hne : (sentinelFilter gathered).length ≠ 0 := by
      intro h
      rw [List.length_eq_zero] at h
      simp [h] at hmem
    simp [energyValAverage, hne]
  · intro xs ys s hs
    unfold energyValAverage
    rw [sentinelFilter_drop_neg hs]
  · norm_num [run_energy_val, energyValAverage, sentinelFilter, List.filter]
  · norm_num [run_energy_val, energyValAverage, sentinelFilter, List.filter]

/-- Witness for C1: the general parts applied to concrete inputs. -/
theorem energy_val_filters_and_averages_witness :
    energyValAverage [(-1 : ℚ), 2, 4]
      = some ((sentinelFilter [(-1 : ℚ), 2, 4]).sum
          / ((sentinelFilter [(-1 : ℚ), 2, 4]).length : ℚ)) ∧
    energyValAverage ([(3 : ℚ)] ++ (-2) :: [5])
      = energyValAverage ([(3 : ℚ)] ++ [5]) :=
  ⟨energy_val_filters_and_averages.1 [(-1 : ℚ), 2, 4]
      ⟨2, by norm_num, by norm_num⟩,
   energy_val_filters_and_averages.2.1 [(3 : ℚ)] [5] (-2) (by norm_num)⟩

/-- C10: with several named validation loaders, run_energy_val computes
its scalar from the gathered per-worker results of the last dataset only;
the accumulated per-dataset list is discarded, so earlier datasets never
influence the returned scalar. -/
theorem run_energy_val_last_dataset_only :
    (∀ (ds : List String) (f : String → List ℚ) (d : String),
        ds.getLast? = some d → run_energy_val ds f = energyValAverage (f d)) ∧
    (∀ (ds : List String) (f g : String → List ℚ) (d : String),
        ds.getLast? = some d → f d = g d →
        run_energy_val ds f = run_energy_val ds g) ∧
    run_energy_val ["dsA", "dsB"]
      (fun d => if d = "dsB" then [-1, 1/2] else [1000]) = some (1/2) := by
  have main : ∀ (ds : List String) (f : String → List ℚ) (d : String),
      ds.getLast? = some d → run_energy_val ds f = energyValAverage (f d) := by
    intro ds f d h
    unfold run_energy_val
    rw [valLoop_snd_last f ds [] none d h]
  refine ⟨main, ?_, ?_⟩
  · intro ds f g d h hfg
    rw [main ds f d h, main ds g d h, hfg]
  · norm_num [run_energy_val, energyValAverage, sentinelFilter, List.filter]

/-- Witness for C10: on two datasets the returned scalar is the filtered
mean of the second dataset's results alone. -/
theorem run_energy_val_last_dataset_only_witness :
    run_energy_val ["dsA", "dsB"] (fun _ => [(7 : ℚ)])
      = energyValAverage [(7 : ℚ)] :=
  run_energy_val_last_dataset_only.1 ["dsA", "dsB"] (fun _ => [(7 : ℚ)])
    ("dsB") rfl

/-- Mapping a function that fixes every element of a list is the identity. -/
theorem map_id_of_forall {α : Type} {f : α → α} :
    ∀ {l : List α}, (∀ x ∈ l, f x = x) → l.map f = l := by
  intro l
  induction l with
  | nil => intro _; rfl
  | cons x t ih =>
    intro h
    rw [List.map_cons, h x (List.mem_cons_self x t),
      ih (fun y hy => h y (List.mem_cons_of_mem x hy))]

/-- Filtering with a predicate every element satisfies is the identity. -/
theorem filter_id_of_forall {α : Type} {p : α → Bool} :
    ∀ {l : List α}, (∀ x ∈ l, p x = true) → l.filter p = l := by
  intro l
  induction l with
  | nil => intro _; rfl
  | cons x t ih =>
    intro h
    rw [List.filter_cons, if_pos (h x (List.mem_cons_self x t)),
      ih (fun y hy => h y (List.mem_cons_of_mem x hy))]

/-- Lookup of a key that is not among a dictionary's keys fails. -/
theorem dictFind_eq_none_of_not_mem {k : String} :
    ∀ {d : LossDict}, k ∉ keysOf d → dictFind k d = none := by
  intro d
  induction d with
  | nil => intro _; rfl
  | cons kv rest ih =>
    intro h
    simp only [keysOf, List.map_cons, List.mem_cons, not_or] at h
    rw [dictFind, if_neg h.1]
    exact ih (by simpa [keysOf] using h.2)

/-- With disjoint key sets, the Python dictionary merge is plain
concatenation. -/
theorem pyMerge_disjoint {a b : LossDict}
    (hab : ∀ k, k ∈ keysOf a → k ∉ keysOf b) :
    pyMerge a b = a ++ b := by
  unfold pyMerge
  have h1 : (a.map fun kv =>
      match dictFind kv.1 b with
      | some w => (kv.1, w)
      | none => kv) = a := by
    apply map_id_of_forall
    intro kv hkv
    have hfind : dictFind kv.1 b = none :=
      dictFind_eq_none_of_not_mem (hab kv.1 (List.mem_map_of_mem _ hkv))
    rw [hfind]
  have h2 : (b.filter fun kv => (dictFind kv.1 a).isNone) = b := by
    apply filter_id_of_forall
    intro kv hkv
    have hk : kv.1 ∉ keysOf a := by
      intro hmem
      exact hab kv.1 hmem (List.mem_map_of_mem _ hkv)
    rw [dictFind_eq_none_of_not_mem hk]
    rfl
  rw [h1, h2]

/-- C6: the scalar objective is the sum of all task-loss terms plus the
sum of all energy-loss terms, and under disjoint key sets the merged loss
dictionary is the key union of the two sources: no key is dropped and
every entry keeps its original value. -/
theorem loss_total_and_merge_union (task_loss_dict energy_loss_dict : LossDict)
    (hdisj : ∀ k, k ∈ keysOf task_loss_dict → k ∉ keysOf energy_loss_dict) :
    total_losses task_loss_dict energy_loss_dict
      = valuesSum (loss_dict task_loss_dict energy_loss_dict) ∧
    loss_dict task_loss_dict energy_loss_dict
      = task_loss_dict ++ energy_loss_dict ∧
    (∀ kv : String × ℚ,
        kv ∈ task_loss_dict ∨ kv ∈ energy_loss_dict →
        kv ∈ loss_dict task_loss_dict energy_loss_dict) := by
  have hm : loss_dict task_loss_dict energy_loss_dict
      = task_loss_dict ++ energy_loss_dict := pyMerge_disjoint hdisj
  refine ⟨?_, hm, ?_⟩
  · rw [hm]
    simp [total_losses, valuesSum]
  · intro kv hkv
    rw [hm]
    rcases hkv with h | h
    · exact List.mem_append_left _ h
    · exact List.mem_append_right _ h

/-- Witness for C6 on concrete one-entry dictionaries with distinct keys. -/
theorem loss_total_and_merge_union_witness :
    total_losses [(("loss_rel" : String), (1 : ℚ)/2)]
        [(("loss_energy" : String), (2 : ℚ))]
      = valuesSum (loss_dict [(("loss_rel" : String), (1 : ℚ)/2)]
        [(("loss_energy" : String), (2 : ℚ))]) ∧
    loss_dict [(("loss_rel" : String), (1 : ℚ)/2)]
        [(("loss_energy" : String), (2 : ℚ))]
      = [(("loss_rel" : String), (1 : ℚ)/2), (("loss_energy" : String), (2 : ℚ))] := by
  have h := loss_total_and_merge_union
    [(("loss_rel" : String), (1 : ℚ)/2)] [(("loss_energy" : String), (2 : ℚ))]
    (by intro k hk; simp [keysOf] at hk ⊢; subst hk; decide)
  exact ⟨h.1, h.2.1⟩

/-- C3: the freeze routine disables gradient computation on every
parameter of the given modules no matter how many train() toggles came
before, it never switches the modules to inference mode (the training
flag is untouched), and the loop re-applies it right after
base_model.train() in every iteration. -/
theorem fix_eval_modules_invariant :
    (∀ (ms : List NNModule) (n : Nat) (m : NNModule),
        m ∈ fix_eval_modules (ms.map (trainIter n)) →
        ∀ p ∈ m.params, p.requires_grad = false) ∧
    (∀ ms : List NNModule,
        (fix_eval_modules ms).map NNModule.training = ms.map NNModule.training) ∧
    (∀ (ms : List NNModule) (n : Nat) (m : NNModule), 1 ≤ n →
        m ∈ fix_eval_modules (ms.map (trainIter n)) → m.training = true) ∧
    (∀ (cfg : Config) (st : TrainState) (b : BatchIn),
        ∃ pre post, iterEvents cfg st b
          = pre ++ [Event.baseTrainMode, Event.fixEvalCall, Event.energyTrainMode]
            ++ post) := by
  refine ⟨?_, ?_, ?_, ?_⟩
  · intro ms n m hm p hp
    rcases List.mem_map.1 hm with ⟨m1, _, rfl⟩
    rcases List.mem_map.1 hp with ⟨p0, _, rfl⟩
    rfl
  · intro ms
    rw [fix_eval_modules, List.map_map]
    rfl
  · intro ms n m hn hm
    rcases List.mem_map.1 hm with ⟨m1, _, rfl⟩
    rcases List.mem_map.1 ‹m1 ∈ ms.map (trainIter n)› with ⟨m0, _, rfl⟩
    cases n with
    | zero => exact absurd hn (by simp)
    | succ k => rfl
  · intro cfg st b
    refine ⟨preEvents (st.iteration + 1) b.targetLens,
      forwardLossEvents cfg.isRankZero ++ optimEvents
        ++ periodicEvents cfg (st.iteration + 1)
        ++ schedEvents cfg (plateauTrigger cfg b)
            (devTrigger cfg (st.iteration + 1)), ?_⟩
    simp [iterEvents, modeEvents]

/-- Witness for C3: freezing one twice-toggled module leaves both
parameters without gradients and keeps the module in training mode. -/
theorem fix_eval_modules_invariant_witness :
    (∀ p ∈ (NNModule.mk [Param.mk false, Param.mk false] true).params,
        p.requires_grad = false) ∧
    (NNModule.mk [Param.mk false, Param.mk false] true).training = true :=
  ⟨fix_eval_modules_invariant.1 [moduleA] 2 _ (by decide),
   fix_eval_modules_invariant.2.2.1 [moduleA] 2 _ (by decide) (by decide)⟩

/-- Membership in a conditionally-present singleton chunk. -/
theorem mem_ite_nil_iff {α : Type} {a : α} {c : Prop} [Decidable c] {l : List α} :
    a ∈ (if c then l else []) ↔ c ∧ a ∈ l := by
  split
  · simp [*]
  · simp [*]

/-- Filtering commutes with a conditionally-present chunk. -/
theorem filter_ite_nil {α : Type} (p : α → Bool) (c : Prop) [Decidable c]
    (l : List α) :
    (if c then l else []).filter p = if c then l.filter p else [] := by
  split <;> rfl

/-- C9: a batch containing an annotation-less target is logged and the
iteration then proceeds exactly as for a fully annotated batch: same
successor state, same break decision, and the trace still runs through
the forward pass, the backward pass and both optimizer steps. -/
theorem empty_target_logged_and_continues (cfg : Config) (st : TrainState)
    (b : BatchIn)
    (hempty : b.targetLens.any (fun l => decide (l < 1)) = true) :
    iterEvents cfg st b
      = Event.logEmptyTarget (st.iteration + 1) b.targetLens
          :: iterEvents cfg st { b with targetLens := [1] } ∧
    iterNextState cfg st b = iterNextState cfg st { b with targetLens := [1] } ∧
    iterBreak cfg st b = iterBreak cfg st { b with targetLens := [1] } ∧
    Event.forwardPass ∈ iterEvents cfg st b ∧
    Event.backwardPass ∈ iterEvents cfg st b ∧
    Event.optStepBase ∈ iterEvents cfg st b ∧
    Event.optStepEnergy ∈ iterEvents cfg st b := by
  refine ⟨?_, rfl, rfl, ?_, ?_, ?_, ?_⟩
  · have h0 : (0 : Nat) ∈ b.targetLens := by simpa using hempty
    simp [iterEvents, preEvents, h0, plateauTrigger]
  all_goals
    simp [iterEvents, preEvents, modeEvents, forwardLossEvents, optimEvents,
      periodicEvents, schedEvents, List.mem_append]

/-- Witness for C9: the loop logs the concrete empty-target batch and
still reaches the backward pass. -/
theorem empty_target_logged_and_continues_witness :
    iterEvents cfgPlain stZero batchEmptyTarget
      = Event.logEmptyTarget 1 [0, 2]
          :: iterEvents cfgPlain stZero { batchEmptyTarget with targetLens := [1] } ∧
    Event.backwardPass ∈ iterEvents cfgPlain stZero batchEmptyTarget :=
  ⟨(empty_target_logged_and_continues cfgPlain stZero batchEmptyTarget
      (by decide)).1,
   (empty_target_logged_and_continues cfgPlain stZero batchEmptyTarget
      (by decide)).2.2.2.2.1⟩

/-- No checkpoint-save event occurs among the scheduler-step events. -/
theorem checkpointSave_not_mem_schedEvents (cfg : Config) (p d : Bool)
    (n a : Nat) :
    Event.checkpointSave n a ∉ schedEvents cfg p d := by
  unfold schedEvents
  split
  · cases p <;> simp
  · simp

/-- C7: the persisted iteration counter increases by exactly one per loop
pass, every periodic checkpoint save embeds that same counter in the
checkpoint name, and the save does fire whenever the checkpoint period
divides the counter. -/
theorem iteration_counter_and_checkpoint_name (cfg : Config) (st : TrainState)
    (b : BatchIn) :
    (iterNextState cfg st b).iteration = st.iteration + 1 ∧
    (∀ n a, Event.checkpointSave n a ∈ iterEvents cfg st b →
        n = st.iteration + 1 ∧ a = st.iteration + 1) ∧
    ((st.iteration + 1) % cfg.checkpointPeriod = 0 →
        Event.checkpointSave (st.iteration + 1) (st.iteration + 1)
          ∈ iterEvents cfg st b) := by
  refine ⟨rfl, ?_, ?_⟩
  · intro n a hmem
    have hns := checkpointSave_not_mem_schedEvents cfg (plateauTrigger cfg b)
      (devTrigger cfg (st.iteration + 1)) n a
    simp [iterEvents, preEvents, modeEvents, forwardLossEvents, optimEvents,
      periodicEvents, List.mem_append, mem_ite_nil_iff, hns] at hmem
    exact ⟨hmem.2.1, hmem.2.2⟩
  · intro hper
    simp [iterEvents, preEvents, modeEvents, forwardLossEvents, optimEvents,
      periodicEvents, schedEvents, List.mem_append, mem_ite_nil_iff, hper]

/-- Witness for C7 at a concrete iteration with checkpoint period one. -/
theorem iteration_counter_and_checkpoint_name_witness :
    (iterNextState cfgPlateau stZero batchOk).iteration = 1 ∧
    Event.checkpointSave 1 1 ∈ iterEvents cfgPlateau stZero batchOk ∧
    (1 = 1 ∧ 1 = 1) :=
  ⟨(iteration_counter_and_checkpoint_name cfgPlateau stZero batchOk).1,
   (iteration_counter_and_checkpoint_name cfgPlateau stZero batchOk).2.2
      (by decide),
   (iteration_counter_and_checkpoint_name cfgPlateau stZero batchOk).2.1 1 1
      ((iteration_counter_and_checkpoint_name cfgPlateau stZero batchOk).2.2
        (by decide))⟩

/-- A conditionally-present chunk satisfies all of a predicate when its
payload does. -/
theorem all_ite_nil {α : Type} (p : α → Bool) (c : Prop) [Decidable c]
    (l : List α) :
    (if c then l else []).all p = if c then l.all p else true := by
  split <;> rfl

/-- A concatenation carries the counter when both halves do. -/
theorem savesCarryIter_append (s t : List Event) (i : Nat)
    (hs : savesCarryIter s i = true) (ht : savesCarryIter t i = true) :
    savesCarryIter (s ++ t) i = true := by
  unfold savesCarryIter at *
  rw [List.all_append, hs, ht]
  rfl

/-- The log chunk contains no save event. -/
theorem savesCarryIter_preEvents (it : Nat) (lens : List Nat) (i : Nat) :
    savesCarryIter (preEvents it lens) i = true := by
  unfold savesCarryIter preEvents
  split <;> rfl

/-- The mode chunk contains no save event. -/
theorem savesCarryIter_modeEvents (i : Nat) :
    savesCarryIter modeEvents i = true := rfl

/-- The forward/loss chunk contains no save event. -/
theorem savesCarryIter_forwardLossEvents (r : Bool) (i : Nat) :
    savesCarryIter (forwardLossEvents r) i = true := by
  unfold savesCarryIter forwardLossEvents
  cases r <;> rfl

/-- The optimizer chunk contains no save event. -/
theorem savesCarryIter_optimEvents (i : Nat) :
    savesCarryIter optimEvents i = true := rfl

/-- Every save event of the periodic chunk for iteration i carries i. -/
theorem savesCarryIter_periodicEvents (cfg : Config) (i : Nat) :
    savesCarryIter (periodicEvents cfg i) i = true := by
  unfold savesCarryIter periodicEvents
  simp only [List.all_append, all_ite_nil]
  split_ifs <;> simp

/-- The scheduler chunk contains no save event. -/
theorem savesCarryIter_schedEvents (cfg : Config) (p d : Bool) (i : Nat) :
    savesCarryIter (schedEvents cfg p d) i = true := by
  unfold savesCarryIter schedEvents
  split
  · cases p <;> rfl
  · rfl

/-- C8: the checkpointer is built without the detector optimizer and
scheduler but with the energy optimizer and scheduler, and every save
event of every iteration carries the persisted iteration counter. -/
theorem checkpointer_asymmetric_persistence :
    trainCheckpointer.base_optimizer = none ∧
    trainCheckpointer.energy_optimizer = some OptRef.energyOpt ∧
    trainCheckpointer.base_scheduler = none ∧
    trainCheckpointer.energy_scheduler = some SchedRef.energySched ∧
    ∀ (cfg : Config) (st : TrainState) (b : BatchIn),
      savesCarryIter (iterEvents cfg st b)
        (iterNextState cfg st b).iteration = true := by
  refine ⟨rfl, rfl, rfl, rfl, ?_⟩
  intro cfg st b
  show savesCarryIter (iterEvents cfg st b) (st.iteration + 1) = true
  unfold iterEvents
  exact savesCarryIter_append _ _ _
    (savesCarryIter_append _ _ _
      (savesCarryIter_append _ _ _
        (savesCarryIter_append _ _ _
          (savesCarryIter_append _ _ _
            (savesCarryIter_preEvents _ _ _)
            (savesCarryIter_modeEvents _))
          (savesCarryIter_forwardLossEvents _ _))
        (savesCarryIter_optimEvents _))
      (savesCarryIter_periodicEvents _ _))
    (savesCarryIter_schedEvents _ _ _ _)

/-- Restriction to key events distributes over concatenation. -/
theorem keyEvents_append (s t : List Event) :
    keyEvents (s ++ t) = keyEvents s ++ keyEvents t :=
  List.filter_append _ _

/-- The log chunk contains no key event. -/
theorem keyEvents_preEvents (it : Nat) (lens : List Nat) :
    keyEvents (preEvents it lens) = [] := by
  unfold keyEvents preEvents
  split <;> rfl

/-- The mode chunk contains no key event. -/
theorem keyEvents_modeEvents : keyEvents modeEvents = [] := rfl

/-- The forward/loss chunk contains no key event. -/
theorem keyEvents_forwardLossEvents (r : Bool) :
    keyEvents (forwardLossEvents r) = [] := by
  unfold keyEvents forwardLossEvents
  cases r <;> rfl

/-- The key events of the optimizer chunk: backward, both clips, both
optimizer steps, in source order. -/
theorem keyEvents_optimEvents :
    keyEvents optimEvents
      = [Event.backwardPass, Event.clipGradEnergy, Event.clipGradBase,
         Event.optStepBase, Event.optStepEnergy] := rfl

/-- The key events of the periodic chunk: checkpoint save, final
checkpoint, validation, in source order. -/
theorem keyEvents_periodicEvents (cfg : Config) (i : Nat) :
    keyEvents (periodicEvents cfg i)
      = (if i % cfg.checkpointPeriod = 0 then [Event.checkpointSave i i] else [])
        ++ (if i = cfg.maxIter then [Event.checkpointFinal i] else [])
        ++ (if cfg.toVal ∧ i % cfg.valPeriod = 0 then [Event.runValidation i]
            else []) := by
  unfold keyEvents periodicEvents
  simp only [List.filter_append, filter_ite_nil]
  split_ifs <;> rfl

/-- Every scheduler-chunk event is a key event. -/
theorem keyEvents_schedEvents (cfg : Config) (p d : Bool) :
    keyEvents (schedEvents cfg p d) = schedEvents cfg p d := by
  unfold keyEvents schedEvents
  split
  · cases p <;> rfl
  · rfl

/-- C5 (amended): the key per-iteration steps occur in the order backward
pass, gradient clipping, optimizer steps, periodic checkpoint/validation
side effects, scheduler steps, termination check — the scheduler steps
come after the checkpoint and validation side effects. -/
theorem iter_key_event_order (cfg : Config) (st : TrainState) (b : BatchIn) :
    keyEvents (iterEvents cfg st b)
      = [Event.backwardPass, Event.clipGradEnergy, Event.clipGradBase,
         Event.optStepBase, Event.optStepEnergy]
        ++ (if (st.iteration + 1) % cfg.checkpointPeriod = 0 then
              [Event.checkpointSave (st.iteration + 1) (st.iteration + 1)]
            else [])
        ++ (if st.iteration + 1 = cfg.maxIter then
              [Event.checkpointFinal (st.iteration + 1)] else [])
        ++ (if cfg.toVal ∧ (st.iteration + 1) % cfg.valPeriod = 0 then
              [Event.runValidation (st.iteration + 1)] else [])
        ++ schedEvents cfg (plateauTrigger cfg b)
            (devTrigger cfg (st.iteration + 1)) := by
  unfold iterEvents
  rw [keyEvents_append, keyEvents_append, keyEvents_append, keyEvents_append,
    keyEvents_append, keyEvents_preEvents, keyEvents_modeEvents,
    keyEvents_forwardLossEvents, keyEvents_optimEvents,
    keyEvents_periodicEvents, keyEvents_schedEvents]
  simp [List.append_assoc]

/-- C5 counterexample: at a concrete iteration the trace contains both
scheduler-step and checkpoint/validation events, and the first
scheduler-step event does not precede the first checkpoint/validation
event: the code checkpoints and validates before stepping the
schedulers, contrary to the claimed order. -/
theorem scheduler_after_checkpoint_counterexample :
    ((iterEvents cfgPlateau stZero batchOk).any isSchedStepEvt = true) ∧
    ((iterEvents cfgPlateau stZero batchOk).any isCkptOrValEvt = true) ∧
    ¬ ((iterEvents cfgPlateau stZero batchOk).findIdx isSchedStepEvt
        < (iterEvents cfgPlateau stZero batchOk).findIdx isCkptOrValEvt) := by
  decide

/-- C2: with the plateau policy active, when after the scheduler step of
a pass either stage count has reached the configured maximum decay steps
the pass breaks, and the loop returns without starting any further
iteration, however many batches remain. -/
theorem plateau_stage_count_stops_loop (cfg : Config) (st : TrainState)
    (b : BatchIn) (bs : List BatchIn)
    (hplat : cfg.schedulePlateau = true)
    (hstage : cfg.maxDecayStep ≤ b.energyStageAfter
        ∨ cfg.maxDecayStep ≤ b.baseStageAfter) :
    iterBreak cfg st b = true ∧
    trainLoop cfg st (b :: bs) = (iterNextState cfg st b, iterEvents cfg st b) ∧
    (trainLoop cfg st (b :: bs)).1.iteration = st.iteration + 1 := by
  have hbrk : iterBreak cfg st b = true := by
    rcases hstage with h | h <;>
      simp [iterBreak, plateauTrigger, hplat, h]
  refine ⟨hbrk, ?_, ?_⟩
  · simp [trainLoop, hbrk]
  · simp [trainLoop, hbrk, iterNextState]

/-- Witness for C2: the energy scheduler reaching stage count three stops
the loop with two batches left over. -/
theorem plateau_stage_count_stops_loop_witness :
    iterBreak cfgPlateau stZero batchDecayed = true ∧
    trainLoop cfgPlateau stZero (batchDecayed :: [batchOk, batchOk])
      = (iterNextState cfgPlateau stZero batchDecayed,
         iterEvents cfgPlateau stZero batchDecayed) :=
  ⟨(plateau_stage_count_stops_loop cfgPlateau stZero batchDecayed
      [batchOk, batchOk] rfl (Or.inl (by decide))).1,
   (plateau_stage_count_stops_loop cfgPlateau stZero batchDecayed
      [batchOk, batchOk] rfl (Or.inl (by decide))).2.1⟩

/-- In a development run under a fixed-step schedule, starting below
iteration ten with enough batches left, the loop ends exactly at
iteration ten. -/
theorem trainLoop_dev_reaches_ten (cfg : Config)
    (hdev : cfg.devRun = true) (hplat : cfg.schedulePlateau = false) :
    ∀ (bs : List BatchIn) (st : TrainState),
      st.iteration < 10 → 10 ≤ st.iteration + bs.length →
      (trainLoop cfg st bs).1.iteration = 10 := by
  intro bs
  induction bs with
  | nil =>
    intro st h1 h2
    exfalso
    simp at h2
    omega
  | cons b bs ih =>
    intro st h1 h2
    have hpl : plateauTrigger cfg b = false := by
      simp [plateauTrigger, hplat]
    by_cases hten : st.iteration + 1 = 10
    · have hbrk : iterBreak cfg st b = true := by
        simp [iterBreak, hpl, devTrigger, hdev, hten]
      simp [trainLoop, hbrk, iterNextState, hten]
    · have hbrk : iterBreak cfg st b = false := by
        have h9 : ¬ st.iteration = 9 := by omega
        simp [iterBreak, hpl, devTrigger, hdev, hten, h9]
      have hstep : trainLoop cfg st (b :: bs)
          = ((trainLoop cfg (iterNextState cfg st b) bs).1,
             iterEvents cfg st b
               ++ (trainLoop cfg (iterNextState cfg st b) bs).2) := by
        simp [trainLoop, hbrk]
      rw [hstep]
      refine ih (iterNextState cfg st b) ?_ ?_
      · have hit : (iterNextState cfg st b).iteration = st.iteration + 1 := rfl
        rw [hit]
        omega
      · have hit : (iterNextState cfg st b).iteration = st.iteration + 1 := rfl
        rw [hit]
        simp only [List.length_cons] at h2
        omega

/-- C4: with the development flag set, a fresh fixed-step-schedule run
stops exactly after iteration 10 no matter how many batches the loader
would still provide. -/
theorem dev_run_stops_at_ten (cfg : Config) (bs : List BatchIn)
    (hdev : cfg.devRun = true) (hplat : cfg.schedulePlateau = false)
    (hlen : 10 ≤ bs.length) :
    (trainRun cfg 0 bs).1.iteration = 10 :=
  trainLoop_dev_reaches_ten cfg hdev hplat bs _ (by decide) (by simpa using hlen)

/-- Witness for C4: twelve available batches, the run still ends at
iteration ten. -/
theorem dev_run_stops_at_ten_witness :
    (trainRun cfgDev 0 (List.replicate 12 batchOk)).1.iteration = 10 :=
  dev_run_stops_at_ten cfgDev (List.replicate 12 batchOk) rfl rfl (by decide)

end EnergyJointTrain
